import Mathlib

/-!
Verification of the Trackmates repository: a shallow embedding of the
server bootstrap (BaseServerApplication), the courses controller, the
user-courses thunk and two React components, with theorems settling the
frozen claims about them.
-/

namespace Trackmates

/-! HTTP status codes used by the server (values named by the spec and the
HTTP standard: OK 200, UNPROCESSED_ENTITY 422, INTERNAL_SERVER_ERROR 500). -/

namespace HTTPCode

def OK : Nat := 200

def UNPROCESSED_ENTITY : Nat := 422

def INTERNAL_SERVER_ERROR : Nat := 500

end HTTPCode

/-- The two members of the ServerErrorType enum. -/
inductive ServerErrorType where
  | COMMON
  | VALIDATION
  deriving DecidableEq, Repr

/-- One issue of a validation error: its message and its path. -/
structure Issue where
  message : String
  path : List String
  deriving DecidableEq, Repr

/-- The error value reaching the error handler.  `issues` is `some` exactly
when the JavaScript check `"issues" in error` holds; `httpStatus` is `some`
exactly when `error instanceof HTTPError`, carrying that error's status. -/
structure ErrorInput where
  message : String
  issues : Option (List Issue)
  httpStatus : Option Nat
  deriving DecidableEq, Repr

/-- The single HTTP reply the error handler sends: status, errorType and
message, plus the `details` list present only on validation responses. -/
structure ErrorReply where
  status : Nat
  errorType : ServerErrorType
  message : String
  details : Option (List (String × List String))
  deriving DecidableEq, Repr

/-- Embedding of BaseServerApplication.initErrorHandler's callback
(src/unnamed/part_001 lines 99-142): first the `"issues" in error` branch
(422, VALIDATION, one detail per issue), then the `instanceof HTTPError`
branch (the error's own status, COMMON), else 500, COMMON.  Every branch
sends exactly one reply whose message is the error's message. -/
def errorHandler (e : ErrorInput) : ErrorReply :=
  match e.issues with
  | some issues =>
      { status := HTTPCode.UNPROCESSED_ENTITY
        errorType := ServerErrorType.VALIDATION
        message := e.message
        details := some (issues.map (fun issue => (issue.message, issue.path))) }
  | none =>
      match e.httpStatus with
      | some s =>
          { status := s
            errorType := ServerErrorType.COMMON
            message := e.message
            details := none }
      | none =>
          { status := HTTPCode.INTERNAL_SERVER_ERROR
            errorType := ServerErrorType.COMMON
            message := e.message
            details := none }

/-! The courses controller (course.controller.ts): the GET root handler. -/

/-- The shape every controller handler returns. -/
structure APIHandlerResponse (α : Type) where
  payload : α
  status : Nat
  deriving DecidableEq, Repr

/-- Embedding of CourseController.findAllByVendor
(course.controller.ts lines 110-115): the awaited result of
courseService.findAllByVendor() is passed in as `serviceResult`. -/
def findAllByVendor {α : Type} (serviceResult : α) : APIHandlerResponse α :=
  { payload := serviceResult
    status := HTTPCode.OK }

/-! The validation compiler (initValidationCompiler, part_001 lines 179-185). -/

/-- A validation schema as the compiler sees it: `parse` either returns the
parsed value or throws (modelled as `Except.error`) a list of issues. -/
structure ValidationSchema (α β : Type) where
  parse : α → Except (List Issue) β

/-- Embedding of the validator the server compiles for a route carrying a
schema: `({ schema }) => (data) => schema.parse(data)`. -/
def compiledValidator {α β : Type} (schema : ValidationSchema α β) :
    α → Except (List Issue) β :=
  fun data => schema.parse data

/-- Fastify dispatch for a validated route: the compiled validator runs on
the incoming data first; the handler runs only on its result, so it is
reached zero times when the validator throws.  The returned number counts
handler invocations. -/
def runValidatedRoute {α β γ : Type} (schema : ValidationSchema α β)
    (handler : β → γ) (data : α) : Except (List Issue) γ × Nat :=
  match compiledValidator schema data with
  | Except.error issues => (Except.error issues, 0)
  | Except.ok parsed => (Except.ok (handler parsed), 1)

/-! Route registration (addRoute / addRoutes / initRoutes,
part_001 lines 187-210 and 279-283). -/

/-- The validation object of a route: optional body, params and query
schemas.  `σ` is the schema type. -/
structure RouteValidation (σ : Type) where
  body : Option σ
  params : Option σ
  query : Option σ
  deriving DecidableEq, Repr

/-- The parameters given to addRoute.  `preHandlers` is `none` when the
caller omitted the field (the code then defaults it to the empty list). -/
structure ServerApplicationRouteParameters (η π σ : Type) where
  handler : η
  method : String
  path : String
  preHandlers : Option (List π)
  validation : Option (RouteValidation σ)
  deriving DecidableEq, Repr

/-- The RouteOptions record handed to `this.app.route` by addRoute. -/
structure RouteOptions (η π σ : Type) where
  handler : η
  method : String
  schemaBody : Option σ
  schemaParams : Option σ
  schemaQuerystring : Option σ
  url : String
  preHandler : List π
  deriving DecidableEq, Repr

/-- Embedding of BaseServerApplication.addRoute (part_001 lines 187-204):
destructures the parameters (defaulting preHandlers to []) and registers one
route with the given method, path and handler, its schema's body, params and
querystring drawn from the optional validation object. -/
def addRoute {η π σ : Type} (parameters : ServerApplicationRouteParameters η π σ) :
    RouteOptions η π σ :=
  { handler := parameters.handler
    method := parameters.method
    schemaBody := parameters.validation.bind (fun v => v.body)
    schemaParams := parameters.validation.bind (fun v => v.params)
    schemaQuerystring := parameters.validation.bind (fun v => v.query)
    url := parameters.path
    preHandler := parameters.preHandlers.getD [] }

/-- Embedding of BaseServerApplication.addRoutes (part_001 lines 206-210):
a for-loop over the list calling addRoute on each element in order, so the
routes registered are the elementwise image of the list under addRoute. -/
def addRoutes {η π σ : Type} (parameters : List (ServerApplicationRouteParameters η π σ)) :
    List (RouteOptions η π σ) :=
  parameters.map addRoute

/-- An API as initRoutes sees it: its list of routes. -/
structure ServerApplicationApi (η π σ : Type) where
  routes : List (ServerApplicationRouteParameters η π σ)

/-- Embedding of BaseServerApplication.initRoutes (part_001 lines 279-283):
flatMap the APIs to their route lists and register them with addRoutes. -/
def initRoutes {η π σ : Type} (apis : List (ServerApplicationApi η π σ)) :
    List (RouteOptions η π σ) :=
  addRoutes (apis.flatMap (fun api => api.routes))

/-! The startup sequence (init, part_001 lines 212-254). -/

/-- One observable step of init, in the order the method performs them. -/
inductive InitStep where
  | serve
  | middlewares
  | validationCompiler
  | errHandler
  | plugins
  | routes
  | socket
  | crons
  | databaseConnect
  | listen
  | logListenError (message : String)
  deriving DecidableEq, Repr

/-- Embedding of BaseServerApplication.init (part_001 lines 212-254) as the
trace of its startup steps.  `listenResult` is the outcome of
`this.app.listen`; on failure the error is logged and then re-thrown, which
the returned `Except` carries out of init. -/
def init (listenResult : Except String Unit) :
    List InitStep × Except String Unit :=
  let trace := [InitStep.serve, InitStep.middlewares,
    InitStep.validationCompiler, InitStep.errHandler, InitStep.plugins,
    InitStep.routes, InitStep.socket, InitStep.crons,
    InitStep.databaseConnect, InitStep.listen]
  match listenResult with
  | Except.ok _ => (trace, Except.ok ())
  | Except.error message =>
      (trace ++ [InitStep.logListenError message], Except.error message)

/-! The user-courses add thunk (actions.ts lines 13-23). -/

/-- The notification message used by the add thunk. -/
inductive NotificationMessage where
  | COURSE_ADDED
  deriving DecidableEq, Repr

/-- Observable events of the add thunk, in occurrence order. -/
inductive ThunkEvent where
  | apiAddCall
  | apiAddResolved
  | apiAddRejected
  | notifySuccess (message : NotificationMessage)
  deriving DecidableEq, Repr

/-- Embedding of the user-courses `add` thunk (actions.ts lines 13-23):
userCourseApi.add is awaited first; only once it resolves is
notification.success(NotificationMessage.COURSE_ADDED) shown and the new
course returned.  A rejection propagates out of the thunk before the
notification line runs.  Returns the event trace and the thunk's outcome. -/
def addThunk {κ ε : Type} (apiResult : Except ε κ) :
    List ThunkEvent × Except ε κ :=
  match apiResult with
  | Except.ok newCourse =>
      ([ThunkEvent.apiAddCall, ThunkEvent.apiAddResolved,
        ThunkEvent.notifySuccess NotificationMessage.COURSE_ADDED],
       Except.ok newCourse)
  | Except.error rejection =>
      ([ThunkEvent.apiAddCall, ThunkEvent.apiAddRejected],
       Except.error rejection)

/-! The file-upload plugin registration (initPlugins, part_001 lines 144-156). -/

/-- The ContentType enum.  The server registration names JPEG and PNG; any
other member of the enum is represented by `other`. -/
inductive ContentType where
  | JPEG
  | PNG
  | other (mime : String)
  deriving DecidableEq, Repr

/-- The options the fileUpload plugin is registered with. -/
structure FileUploadOptions where
  allowedExtensions : List ContentType
  fileSize : Nat
  deriving DecidableEq, Repr

/-- Embedding of the fileUpload registration in initPlugins (part_001 lines
152-155).  getSizeInBytes and MAX_FILE_SIZE_IN_MB live outside src/, so they
are passed in abstractly; the registration applies one to the other. -/
def registeredFileUploadOptions (getSizeInBytes : Nat → Nat)
    (maxFileSizeInMb : Nat) : FileUploadOptions :=
  { allowedExtensions := [ContentType.JPEG, ContentType.PNG]
    fileSize := getSizeInBytes maxFileSizeInMb }

/-- Modelled from the spec: the fileUpload plugin implementation is not under
src/.  Per the spec's file-upload feature and the registration parameters, it
accepts an upload exactly when the content type is among allowedExtensions
and the size does not exceed fileSize. -/
def fileUploadAccepts (options : FileUploadOptions)
    (contentType : ContentType) (size : Nat) : Bool :=
  options.allowedExtensions.contains contentType
    && decide (size ≤ options.fileSize)

/-! NotificationListItem (part_002). -/

/-- The NotificationStatus enum members the component distinguishes. -/
inductive NotificationStatus where
  | READ
  | UNREAD
  deriving DecidableEq, Repr

/-- The notification DTO fields the component reads. -/
structure NotificationResponseDto where
  id : Nat
  userId : Nat
  userAvatarUrl : Option String
  message : String
  createdAt : String
  status : NotificationStatus
  deriving DecidableEq, Repr

/-- getValidClassNames keeps exactly the truthy class names; a falsy entry
(the JavaScript `false` from `!isRead && styles["unread"]`) is `none`. -/
def getValidClassNames (classNames : List (Option String)) : List String :=
  classNames.filterMap id

/-- The component's `isRead` binding: status equals NotificationStatus.READ. -/
def notificationIsRead (n : NotificationResponseDto) : Bool :=
  decide (n.status = NotificationStatus.READ)

/-- Embedding of the useEffect in NotificationListItem (part_002): on a
render, onRead fires with the notification id exactly when the item is in
view and not read.  Returns the list of onRead invocations. -/
def notificationOnReadCalls (n : NotificationResponseDto)
    (inView : Bool) : List Nat :=
  if !(notificationIsRead n) && inView then [n.id] else []

/-- Embedding of the list item's className: getValidClassNames of the base
class and, only when unread, the unread class. -/
def notificationItemClassNames (n : NotificationResponseDto) : List String :=
  getValidClassNames [some "notification",
    if !(notificationIsRead n) then some "unread" else none]

/-! The single-page-app fallback (initServe, part_001 lines 158-172). -/

/-- What the server answers a request with. -/
inductive ServerResponse (η : Type) where
  | handlerRun (handler : η)
  | file (fileName : String) (root : String)
  | errorPayload (status : Nat) (message : String)
  deriving DecidableEq, Repr

/-- Embedding of initServe's setNotFoundHandler (part_001 lines 169-171)
together with the dispatch it is registered into: a request matching a
registered route runs that route's handler; a request matching none is
answered by the not-found handler, which sends the file index.html from the
static root rather than an error payload. -/
def dispatchRequest {η π σ : Type} (routes : List (RouteOptions η π σ))
    (staticPath method url : String) : ServerResponse η :=
  match routes.find? (fun r => r.method == method && r.url == url) with
  | some r => ServerResponse.handlerRun r.handler
  | none => ServerResponse.file "index.html" staticPath

/-! FriendsTab (friends-tab.tsx). -/

/-- Modelled from the spec: the constant EMPTY_ARRAY_LENGTH from
libs/constants is not under src/; it is the length of an empty array. -/
def EMPTY_ARRAY_LENGTH : Nat := 0

/-- The pagination object fields FriendsTab destructures (the
handlePageChange callback is omitted from the rendered-data model). -/
structure PaginationState where
  page : Nat
  pages : List Nat
  pagesCount : Nat
  deriving DecidableEq, Repr

/-- A node FriendsTab can render. -/
inductive FriendsTabNode (υ : Type) where
  | friendList (friends : List υ)
  | paginationNode (currentPage : Nat) (pages : List Nat) (pagesCount : Nat)
  deriving DecidableEq, Repr

/-- Whether a rendered node is the Pagination component. -/
def isPaginationNode {υ : Type} : FriendsTabNode υ → Bool
  | FriendsTabNode.paginationNode _ _ _ => true
  | _ => false

/-- Embedding of FriendsTab (friends-tab.tsx lines 13-33): always renders the
FriendList over items, and renders Pagination after it exactly when
hasPages, i.e. items.length is greater than EMPTY_ARRAY_LENGTH. -/
def friendsTab {υ : Type} (items : List υ) (pagination : PaginationState) :
    List (FriendsTabNode υ) :=
  let hasPages := decide (items.length > EMPTY_ARRAY_LENGTH)
  [FriendsTabNode.friendList items] ++
    (if hasPages then
      [FriendsTabNode.paginationNode pagination.page pagination.pages
        pagination.pagesCount]
    else [])

end Trackmates

namespace Trackmates

/-- C1: the error handler sends exactly one response whose message equals the
error's message; an error with issues gets 422 VALIDATION with one
(message, path) detail per issue; otherwise an HTTPError gets its own status
with COMMON; every other error gets 500 with COMMON. -/
theorem errorHandler_spec (e : ErrorInput) :
    (errorHandler e).message = e.message ∧
    (∀ issues, e.issues = some issues →
      (errorHandler e).status = HTTPCode.UNPROCESSED_ENTITY ∧
      (errorHandler e).errorType = ServerErrorType.VALIDATION ∧
      (errorHandler e).details
        = some (issues.map (fun issue => (issue.message, issue.path)))) ∧
    (∀ s, e.issues = none → e.httpStatus = some s →
      (errorHandler e).status = s ∧
      (errorHandler e).errorType = ServerErrorType.COMMON) ∧
    (e.issues = none → e.httpStatus = none →
      (errorHandler e).status = HTTPCode.INTERNAL_SERVER_ERROR ∧
      (errorHandler e).errorType = ServerErrorType.COMMON) := by
  obtain ⟨msg, issues, httpStatus⟩ := e
  cases issues with
  | some is =>
      refine ⟨rfl, ?_, ?_, ?_⟩
      · intro js hjs
        cases hjs
        exact ⟨rfl, rfl, rfl⟩
      · intro s h
        cases h
      · intro h
        cases h
  | none =>
      cases httpStatus with
      | some s =>
          refine ⟨rfl, ?_, ?_, ?_⟩
          · intro js hjs; cases hjs
          · intro t _ ht
            cases ht
            exact ⟨rfl, rfl⟩
          · intro _ h
            cases h
      | none =>
          refine ⟨rfl, ?_, ?_, ?_⟩
          · intro js hjs; cases hjs
          · intro t _ ht; cases ht
          · intro _ _
            exact ⟨rfl, rfl⟩

/-- Witness for C1 at a concrete HTTPError input. -/
theorem errorHandler_spec_witness :
    (errorHandler ⟨"not found", none, some 404⟩).message = "not found" ∧
    (errorHandler ⟨"not found", none, some 404⟩).status = 404 ∧
    (errorHandler ⟨"not found", none, some 404⟩).errorType
      = ServerErrorType.COMMON := by
  have h := errorHandler_spec ⟨"not found", none, some 404⟩
  exact ⟨h.1, (h.2.2.1 404 rfl rfl).1, (h.2.2.1 404 rfl rfl).2⟩

/-- C2: the courses controller's GET root handler returns status OK and, as
payload, exactly the value resolved by courseService.findAllByVendor, with no
transformation. -/
theorem findAllByVendor_spec {α : Type} (serviceResult : α) :
    (findAllByVendor serviceResult).status = HTTPCode.OK ∧
    (findAllByVendor serviceResult).payload = serviceResult :=
  ⟨rfl, rfl⟩

/-- C3: the validator compiled for a route with a validation schema returns
schema.parse(data) on incoming data; it throws exactly when the schema
rejects the input, and on rejected input the route handler is never
invoked. -/
theorem compiledValidator_spec {α β γ : Type} (schema : ValidationSchema α β)
    (handler : β → γ) (data : α) :
    compiledValidator schema data = schema.parse data ∧
    (∀ issues, schema.parse data = Except.error issues →
      compiledValidator schema data = Except.error issues ∧
      runValidatedRoute schema handler data = (Except.error issues, 0)) ∧
    (∀ parsed, schema.parse data = Except.ok parsed →
      runValidatedRoute schema handler data
        = (Except.ok (handler parsed), 1)) := by
  refine ⟨rfl, ?_, ?_⟩
  · intro issues h
    refine ⟨h, ?_⟩
    simp [runValidatedRoute, compiledValidator, h]
  · intro parsed h
    simp [runValidatedRoute, compiledValidator, h]

/-- Witness for C3 at a concrete schema rejecting the concrete input 0. -/
theorem compiledValidator_spec_witness :
    runValidatedRoute
      (ValidationSchema.mk (fun n : Nat =>
        if n = 0 then Except.error [⟨"zero", ["n"]⟩] else Except.ok n))
      (fun n => n + 1) 0
      = (Except.error [⟨"zero", ["n"]⟩], 0) := by
  have h := compiledValidator_spec
    (ValidationSchema.mk (fun n : Nat =>
      if n = 0 then Except.error [⟨"zero", ["n"]⟩] else Except.ok n))
    (fun n => n + 1) 0
  exact (h.2.1 [⟨"zero", ["n"]⟩] (by simp)).2

/-- C4: init performs static serving, swagger middlewares, validation
compiler, error handler, plugins, routes, sockets, crons, database connect
and listen in this fixed order; when listen fails the error is logged and
re-thrown, and when it succeeds init returns normally. -/
theorem init_spec (message : String) :
    init (Except.ok ())
      = ([InitStep.serve, InitStep.middlewares, InitStep.validationCompiler,
          InitStep.errHandler, InitStep.plugins, InitStep.routes,
          InitStep.socket, InitStep.crons, InitStep.databaseConnect,
          InitStep.listen], Except.ok ()) ∧
    init (Except.error message)
      = ([InitStep.serve, InitStep.middlewares, InitStep.validationCompiler,
          InitStep.errHandler, InitStep.plugins, InitStep.routes,
          InitStep.socket, InitStep.crons, InitStep.databaseConnect,
          InitStep.listen, InitStep.logListenError message],
         Except.error message) :=
  ⟨rfl, rfl⟩

/-- C5: addRoutes registers its routes one by one in list order through
addRoute; initRoutes registers exactly the flatMap, in apis order, of the
APIs' route lists; and each registered route keeps the given method, path,
handler and preHandlers (empty when omitted), with its schema's body, params
and querystring drawn from the route's validation object. -/
theorem addRoutes_initRoutes_spec {η π σ : Type}
    (parameters : List (ServerApplicationRouteParameters η π σ))
    (apis : List (ServerApplicationApi η π σ))
    (p : ServerApplicationRouteParameters η π σ) :
    addRoutes parameters = parameters.map addRoute ∧
    initRoutes apis = addRoutes (apis.flatMap (fun api => api.routes)) ∧
    (addRoute p).method = p.method ∧
    (addRoute p).url = p.path ∧
    (addRoute p).handler = p.handler ∧
    (addRoute p).preHandler = p.preHandlers.getD [] ∧
    (p.preHandlers = none → (addRoute p).preHandler = []) ∧
    (addRoute p).schemaBody = p.validation.bind (fun v => v.body) ∧
    (addRoute p).schemaParams = p.validation.bind (fun v => v.params) ∧
    (addRoute p).schemaQuerystring = p.validation.bind (fun v => v.query) := by
  refine ⟨rfl, rfl, rfl, rfl, rfl, rfl, ?_, rfl, rfl, rfl⟩
  intro h
  simp [addRoute, h]

/-- Witness for C5 at a concrete route whose preHandlers field is omitted. -/
theorem addRoutes_initRoutes_spec_witness :
    (addRoute (ServerApplicationRouteParameters.mk (7 : Nat) "GET" "/courses"
        (none : Option (List Nat)) (none : Option (RouteValidation Nat)))).preHandler
      = ([] : List Nat) := by
  have h := addRoutes_initRoutes_spec
    ([] : List (ServerApplicationRouteParameters Nat Nat Nat))
    ([] : List (ServerApplicationApi Nat Nat Nat))
    (ServerApplicationRouteParameters.mk 7 "GET" "/courses" none none)
  exact h.2.2.2.2.2.2.1 rfl

/-- C6: the add thunk resolves to exactly the course returned by
userCourseApi.add, with the COURSE_ADDED success notification shown only
after that call resolves; on rejection no success notification is shown and
the thunk rejects with the same error. -/
theorem addThunk_spec {κ ε : Type} (newCourse : κ) (rejection : ε) :
    addThunk (Except.ok newCourse : Except ε κ)
      = ([ThunkEvent.apiAddCall, ThunkEvent.apiAddResolved,
          ThunkEvent.notifySuccess NotificationMessage.COURSE_ADDED],
         (Except.ok newCourse : Except ε κ)) ∧
    addThunk (Except.error rejection : Except ε κ)
      = (([ThunkEvent.apiAddCall, ThunkEvent.apiAddRejected]
            : List ThunkEvent),
         (Except.error rejection : Except ε κ)) ∧
    (addThunk (Except.error rejection : Except ε κ)).1.contains
        (ThunkEvent.notifySuccess NotificationMessage.COURSE_ADDED) = false :=
  ⟨rfl, rfl, rfl⟩

/-- C7: the fileUpload plugin is registered with allowed extensions exactly
[JPEG, PNG] and maximum size getSizeInBytes MAX_FILE_SIZE_IN_MB; an upload
of another content type, or one exceeding that size, is rejected. -/
theorem fileUpload_spec (getSizeInBytes : Nat → Nat) (maxFileSizeInMb : Nat)
    (contentType : ContentType) (size : Nat) (mime : String) :
    (registeredFileUploadOptions getSizeInBytes maxFileSizeInMb).allowedExtensions
      = [ContentType.JPEG, ContentType.PNG] ∧
    (registeredFileUploadOptions getSizeInBytes maxFileSizeInMb).fileSize
      = getSizeInBytes maxFileSizeInMb ∧
    fileUploadAccepts (registeredFileUploadOptions getSizeInBytes maxFileSizeInMb)
      (ContentType.other mime) size = false ∧
    (getSizeInBytes maxFileSizeInMb < size →
      fileUploadAccepts (registeredFileUploadOptions getSizeInBytes maxFileSizeInMb)
        contentType size = false) := by
  refine ⟨rfl, rfl, ?_, ?_⟩
  · simp [fileUploadAccepts, registeredFileUploadOptions, List.contains]
  · intro h
    simp [fileUploadAccepts, registeredFileUploadOptions]
    omega

/-- Witness for C7: an oversize JPEG upload is rejected. -/
theorem fileUpload_spec_witness :
    fileUploadAccepts
      (registeredFileUploadOptions (fun mb => mb * 1024 * 1024) 10)
      ContentType.JPEG (10 * 1024 * 1024 + 1) = false := by
  have h := fileUpload_spec (fun mb => mb * 1024 * 1024) 10
    ContentType.JPEG (10 * 1024 * 1024 + 1) ""
  exact h.2.2.2 (by norm_num)

/-- C8: NotificationListItem invokes onRead with the notification id exactly
when the status is not READ and the item is in view; for a READ notification
onRead never fires and the unread class is not applied. -/
theorem notificationListItem_spec (n : NotificationResponseDto)
    (inView : Bool) :
    (notificationOnReadCalls n inView = [n.id] ↔
      (n.status ≠ NotificationStatus.READ ∧ inView = true)) ∧
    (notificationOnReadCalls n inView = [n.id] ∨
      notificationOnReadCalls n inView = []) ∧
    (n.status = NotificationStatus.READ →
      notificationOnReadCalls n inView = [] ∧
      notificationItemClassNames n = ["notification"] ∧
      (notificationItemClassNames n).contains "unread" = false) := by
  refine ⟨?_, ?_, ?_⟩
  · constructor
    · intro h
      by_cases hr : n.status = NotificationStatus.READ
      · simp [notificationOnReadCalls, notificationIsRead, hr] at h
      · cases inView with
        | true => exact ⟨hr, rfl⟩
        | false => simp [notificationOnReadCalls] at h
    · rintro ⟨hr, hv⟩
      simp [notificationOnReadCalls, notificationIsRead, hr, hv]
  · by_cases hr : n.status = NotificationStatus.READ
    · right
      simp [notificationOnReadCalls, notificationIsRead, hr]
    · cases inView with
      | true =>
          left
          simp [notificationOnReadCalls, notificationIsRead, hr]
      | false =>
          right
          simp [notificationOnReadCalls]
  · intro hr
    refine ⟨?_, ?_, ?_⟩
    · simp [notificationOnReadCalls, notificationIsRead, hr]
    · simp [notificationItemClassNames, getValidClassNames,
        notificationIsRead, hr]
    · simp [notificationItemClassNames, getValidClassNames,
        notificationIsRead, hr, List.contains]

/-- Witness for C8 at a concrete unread notification in view. -/
theorem notificationListItem_spec_witness :
    notificationOnReadCalls
      ⟨5, 2, none, "hi", "2024-01-01", NotificationStatus.UNREAD⟩ true
      = [5] := by
  have h := notificationListItem_spec
    ⟨5, 2, none, "hi", "2024-01-01", NotificationStatus.UNREAD⟩ true
  exact h.1.mpr ⟨by decide, rfl⟩

/-- C9: a request matching no registered route is answered by serving
index.html from the static directory, never by an error payload. -/
theorem notFoundFallback_spec {η π σ : Type}
    (routes : List (RouteOptions η π σ)) (staticPath method url : String)
    (h : ∀ r ∈ routes, ¬(r.method = method ∧ r.url = url)) :
    dispatchRequest routes staticPath method url
      = ServerResponse.file "index.html" staticPath ∧
    (∀ status message, dispatchRequest routes staticPath method url
      ≠ ServerResponse.errorPayload status message) := by
  have hfind : routes.find? (fun r => r.method == method && r.url == url)
      = none := by
    apply List.find?_eq_none.mpr
    intro r hr
    have := h r hr
    simp only [Bool.and_eq_true, beq_iff_eq]
    intro hc
    exact this ⟨hc.1, hc.2⟩
  constructor
  · simp [dispatchRequest, hfind]
  · intro status message
    simp [dispatchRequest, hfind]

/-- Witness for C9 with an empty route table. -/
theorem notFoundFallback_spec_witness :
    dispatchRequest ([] : List (RouteOptions Nat Nat Nat))
      "/srv/public" "GET" "/missing"
      = ServerResponse.file "index.html" "/srv/public" :=
  (notFoundFallback_spec ([] : List (RouteOptions Nat Nat Nat))
    "/srv/public" "GET" "/missing" (by intro r hr; cases hr)).1

/-- C10: FriendsTab renders Pagination exactly when items is non-empty; for
an empty items list only the FriendList is rendered, whatever the pagination
object's pagesCount. -/
theorem friendsTab_spec {υ : Type} (items : List υ) (p : PaginationState) :
    ((friendsTab items p).any isPaginationNode = true ↔ items ≠ []) ∧
    (items = [] → friendsTab items p = [FriendsTabNode.friendList items]) ∧
    (items ≠ [] → friendsTab items p
      = [FriendsTabNode.friendList items,
         FriendsTabNode.paginationNode p.page p.pages p.pagesCount]) := by
  cases items with
  | nil =>
      refine ⟨?_, ?_, ?_⟩
      · simp [friendsTab, isPaginationNode, EMPTY_ARRAY_LENGTH]
      · intro _
        simp [friendsTab, EMPTY_ARRAY_LENGTH]
      · intro h
        exact absurd rfl h
  | cons x xs =>
      refine ⟨?_, ?_, ?_⟩
      · simp [friendsTab, isPaginationNode, EMPTY_ARRAY_LENGTH]
      · intro h
        cases h
      · intro _
        simp [friendsTab, EMPTY_ARRAY_LENGTH]

/-- Witness for C10 at a one-element list and at the empty list. -/
theorem friendsTab_spec_witness :
    friendsTab ([3] : List Nat) ⟨1, [1, 2], 2⟩
      = [FriendsTabNode.friendList [3],
         FriendsTabNode.paginationNode 1 [1, 2] 2] ∧
    friendsTab ([] : List Nat) ⟨1, [1, 2], 2⟩
      = [FriendsTabNode.friendList []] := by
  constructor
  · exact (friendsTab_spec ([3] : List Nat) ⟨1, [1, 2], 2⟩).2.2 (by decide)
  · exact (friendsTab_spec ([] : List Nat) ⟨1, [1, 2], 2⟩).2.1 rfl

end Trackmates
